import Mathlib

/-!
# Verification of the mortpool lending protocol

Shallow embedding of the two Solidity contracts
`MortgagePool.sol` (liquidity pool) and `MortgageManager.sol` (mortgage
lifecycle), together with the fragment of `PropertyNFT.sol` the manager
observes (the per-property `valueUSD` and `isListed` flag; string metadata
and raw NFT custody do not influence any ledger arithmetic and are not
tracked).

Modelling conventions:
* `uint256` is modelled as `Nat`.  Solidity ≥0.8 arithmetic is checked:
  an underflowing subtraction or a division by zero reverts the whole
  transaction; those reverts appear here as explicit
  `Except.error "arithmetic underflow"` / `Except.error "division by zero"`
  branches placed exactly where the source performs the operation.
* `require(cond, msg)` becomes an `if`/`Except.error msg` branch with the
  source's message string.
* Every state-mutating entry point is a function
  `state → args → Except String state`.  An `Except.error` result models a
  reverted transaction: per EVM semantics no state change survives, so the
  pre-state is unchanged.
* Solidity events that the claims observe (`MortgageRepayment`,
  `InsurancePayout`) are modelled as append-only logs inside `PoolState`.
* External ETH transfers (`call{value: …}`) are assumed to succeed; a
  failing transfer only produces one more revert branch and no claim here
  depends on it.
-/

namespace Mortpool

/-- Account / contract addresses, modelled as an opaque comparable key. -/
abbrev Addr := Nat

/-! ## Constants (from `MortgageManager.sol` and `MortgagePool.sol`) -/

def BASIS_POINTS : Nat := 10000

/-- `30 days` in seconds. -/
def SECONDS_PER_MONTH : Nat := 30 * 86400

def LATE_FEE_BPS : Nat := 500

/-- `15 days` in seconds. -/
def GRACE_PERIOD : Nat := 15 * 86400

/-- `90 days` in seconds. -/
def DEFAULT_PERIOD : Nat := 90 * 86400

/-- 2% insurance cut, in basis points. -/
def INSURANCE_RATE : Nat := 200

/-! ## Pool state (`MortgagePool.sol`) -/

/-- State of the `MortgagePool` contract.  `repaymentLog` and `payoutLog`
record the `MortgageRepayment(principal, interest)` and
`InsurancePayout(_, amount)` events. -/
structure PoolState where
  totalLiquidity : Nat
  totalShares : Nat
  insuranceReserve : Nat
  activeMortgages : Nat
  totalInterestEarned : Nat
  lpShares : Addr → Nat
  lpDepositTimestamp : Addr → Nat
  authorizedBorrowers : Addr → Bool
  repaymentLog : List (Nat × Nat)
  payoutLog : List Nat

/-- A freshly deployed pool: every counter is zero, no shares, nobody
authorized (the constructor only sets the owner). -/
def emptyPool : PoolState where
  totalLiquidity := 0
  totalShares := 0
  insuranceReserve := 0
  activeMortgages := 0
  totalInterestEarned := 0
  lpShares := fun _ => 0
  lpDepositTimestamp := fun _ => 0
  authorizedBorrowers := fun _ => false
  repaymentLog := []
  payoutLog := []

/-- `MortgagePool.depositLiquidity()`; `value` is `msg.value`, `now` is
`block.timestamp`. -/
def depositLiquidity (st : PoolState) (caller : Addr) (value now : Nat) :
    Except String PoolState :=
  if value = 0 then Except.error "Must deposit ETH"
  else if st.totalShares ≠ 0 ∧ st.totalLiquidity = 0 then Except.error "division by zero"
  else
    let shares := if st.totalShares = 0 then value
      else value * st.totalShares / st.totalLiquidity
    let insuranceAmount := value * INSURANCE_RATE / BASIS_POINTS
    Except.ok { st with
      insuranceReserve := st.insuranceReserve + insuranceAmount
      lpShares := fun a => if a = caller then st.lpShares a + shares else st.lpShares a
      totalShares := st.totalShares + shares
      totalLiquidity := st.totalLiquidity + value
      lpDepositTimestamp := fun a => if a = caller then now else st.lpDepositTimestamp a }

/-- `MortgagePool.withdrawLiquidity(shares)`. -/
def withdrawLiquidity (st : PoolState) (caller : Addr) (shares : Nat) :
    Except String PoolState :=
  if st.lpShares caller < shares then Except.error "Insufficient shares"
  else if shares = 0 then Except.error "Must withdraw > 0 shares"
  else if st.totalShares = 0 then Except.error "division by zero"
  else
    let ethAmount := shares * st.totalLiquidity / st.totalShares
    if st.totalLiquidity < st.activeMortgages then Except.error "arithmetic underflow"
    else
      let available := st.totalLiquidity - st.activeMortgages
      if available < ethAmount then
        Except.error "Insufficient liquidity (funds locked in mortgages)"
      else if st.totalShares < shares then Except.error "arithmetic underflow"
      else
        Except.ok { st with
          lpShares := fun a => if a = caller then st.lpShares a - shares else st.lpShares a
          totalShares := st.totalShares - shares
          totalLiquidity := st.totalLiquidity - ethAmount }

/-- `MortgagePool.fundMortgage(borrower, amount)`. -/
def fundMortgage (st : PoolState) (caller borrower : Addr) (amount : Nat) :
    Except String PoolState :=
  if st.authorizedBorrowers caller = false then Except.error "Not authorized"
  else if st.totalLiquidity < st.activeMortgages then Except.error "arithmetic underflow"
  else if st.totalLiquidity - st.activeMortgages < amount then
    Except.error "Insufficient liquidity"
  else
    Except.ok { st with activeMortgages := st.activeMortgages + amount }

/-- `MortgagePool.receiveMortgagePayment(principal, interest)`; `value` is
`msg.value`. -/
def receiveMortgagePayment (st : PoolState) (caller : Addr)
    (value principal interest : Nat) : Except String PoolState :=
  if st.authorizedBorrowers caller = false then Except.error "Not authorized"
  else if value ≠ principal + interest then Except.error "Payment amount mismatch"
  else if st.activeMortgages < principal then Except.error "arithmetic underflow"
  else
    Except.ok { st with
      activeMortgages := st.activeMortgages - principal
      totalLiquidity := st.totalLiquidity + value
      totalInterestEarned := st.totalInterestEarned + interest
      repaymentLog := st.repaymentLog ++ [(principal, interest)] }

/-- `MortgagePool.coverDefault(amount)`. -/
def coverDefault (st : PoolState) (caller : Addr) (amount : Nat) :
    Except String PoolState :=
  if st.authorizedBorrowers caller = false then Except.error "Not authorized"
  else if st.insuranceReserve < amount then Except.error "Insufficient insurance reserve"
  else if st.activeMortgages < amount then Except.error "arithmetic underflow"
  else
    Except.ok { st with
      insuranceReserve := st.insuranceReserve - amount
      activeMortgages := st.activeMortgages - amount
      payoutLog := st.payoutLog ++ [amount] }

/-! ## Mortgage manager state (`MortgageManager.sol`) -/

inductive MortgageStatus
  | None | Applied | Active | PaidOff | Defaulted | Foreclosed
  deriving DecidableEq, Repr

/-- The `Mortgage` struct of `MortgageManager.sol`. -/
structure Mortgage where
  propertyId : Nat
  borrower : Addr
  propertyValue : Nat
  downPayment : Nat
  loanAmount : Nat
  interestRateBPS : Nat
  durationMonths : Nat
  monthlyPayment : Nat
  startTimestamp : Nat
  lastPaymentTimestamp : Nat
  totalPaid : Nat
  ownershipSharesBPS : Nat
  paymentsCount : Nat
  status : MortgageStatus
  deriving DecidableEq, Repr

/-- Solidity mapping default: the all-zero struct with status `None`. -/
def defaultMortgage : Mortgage where
  propertyId := 0
  borrower := 0
  propertyValue := 0
  downPayment := 0
  loanAmount := 0
  interestRateBPS := 0
  durationMonths := 0
  monthlyPayment := 0
  startTimestamp := 0
  lastPaymentTimestamp := 0
  totalPaid := 0
  ownershipSharesBPS := 0
  paymentsCount := 0
  status := MortgageStatus.None

/-- The slice of a `PropertyNFT.Property` the manager reads (string
metadata, fractional-share count and the listing timestamp never flow into
any ledger arithmetic and are omitted). -/
structure Property where
  valueUSD : Nat
  isListed : Bool
  deriving DecidableEq, Repr

/-- Combined state of `MortgageManager`, its `MortgagePool` and the
`PropertyNFT` registry fragment.  `props i = none` models an unminted
token id. -/
structure SysState where
  props : Nat → Option Property
  mortgages : Nat → Mortgage
  borrowerMortgages : Addr → List Nat
  totalActiveMortgages : Nat
  defaultInterestRateBPS : Nat
  pool : PoolState

/-- Store mortgage record `m` under key `pid` (a Solidity mapping
write). -/
def setMortgage (s : SysState) (pid : Nat) (m : Mortgage) : SysState :=
  { s with mortgages := fun i => if i = pid then m else s.mortgages i }

/-- Replace the pool component of the system state. -/
def setPool (s : SysState) (p : PoolState) : SysState :=
  { s with pool := p }

/-- Store registry entry `p` under token id `pid`. -/
def setProp (s : SysState) (pid : Nat) (p : Option Property) : SysState :=
  { s with props := fun i => if i = pid then p else s.props i }

/-- `borrowerMortgages[a].push(pid)`. -/
def pushBorrower (s : SysState) (a : Addr) (pid : Nat) : SysState :=
  { s with borrowerMortgages := fun b =>
      if b = a then s.borrowerMortgages b ++ [pid] else s.borrowerMortgages b }

/-- `MortgageManager.calculateMonthlyPayment(principal, annualRateBPS,
months)` (the source's unused local `monthlyRateBPS` is dropped). -/
def calculateMonthlyPayment (principal annualRateBPS months : Nat) : Nat :=
  if months = 0 then 0
  else
    let totalInterest := principal * annualRateBPS * months / (BASIS_POINTS * 12)
    (principal + totalInterest) / months

/-- `MortgageManager._completeMortgage(propertyId)`. -/
def completeMortgage (s : SysState) (propertyId : Nat) : Except String SysState :=
  let m1 := { s.mortgages propertyId with
    status := MortgageStatus.PaidOff
    ownershipSharesBPS := BASIS_POINTS }
  if s.totalActiveMortgages = 0 then Except.error "arithmetic underflow"
  else
    Except.ok { setMortgage s propertyId m1 with
      totalActiveMortgages := s.totalActiveMortgages - 1 }

/-- `MortgageManager._activateMortgage(propertyId)`.  `mgrAddr` is the
manager contract's own address, the `msg.sender` the pool sees.  The NFT
custody transfer to the borrower is not tracked; `unlistProperty` clears
the listing flag. -/
def activateMortgage (s : SysState) (mgrAddr : Addr) (propertyId : Nat) :
    Except String SysState :=
  let m := s.mortgages propertyId
  if m.status ≠ MortgageStatus.Applied then Except.error "Invalid status"
  else
    let s1 := { setMortgage s propertyId { m with status := MortgageStatus.Active } with
      totalActiveMortgages := s.totalActiveMortgages + 1 }
    match fundMortgage s1.pool mgrAddr m.borrower m.loanAmount with
    | Except.error e => Except.error e
    | Except.ok pool1 =>
      Except.ok (setProp (setPool s1 pool1) propertyId
        ((s.props propertyId).map (fun p => { p with isListed := false })))

/-- `MortgageManager.applyForMortgage(propertyId, durationMonths)`;
`value` is `msg.value` (the down payment), `now` is `block.timestamp`. -/
def applyForMortgage (s : SysState) (mgrAddr caller : Addr)
    (propertyId durationMonths value now : Nat) : Except String SysState :=
  match s.props propertyId with
  | none => Except.error "Property does not exist"
  | some property =>
    if property.isListed = false then Except.error "Property not listed"
    else if (s.mortgages propertyId).status ≠ MortgageStatus.None then
      Except.error "Property already mortgaged"
    else
      let minDownPayment := property.valueUSD * 1000 / BASIS_POINTS
      if value < minDownPayment then Except.error "Insufficient down payment (min 10%)"
      else if property.valueUSD < value then Except.error "arithmetic underflow"
      else
        let loanAmount := property.valueUSD - value
        let monthlyPayment :=
          calculateMonthlyPayment loanAmount s.defaultInterestRateBPS durationMonths
        if s.pool.totalLiquidity < s.pool.activeMortgages then
          Except.error "arithmetic underflow"
        else if s.pool.totalLiquidity - s.pool.activeMortgages < loanAmount then
          Except.error "Insufficient pool liquidity"
        else if property.valueUSD = 0 then Except.error "division by zero"
        else
          let initialOwnershipBPS := value * BASIS_POINTS / property.valueUSD
          let m : Mortgage := {
            propertyId := propertyId
            borrower := caller
            propertyValue := property.valueUSD
            downPayment := value
            loanAmount := loanAmount
            interestRateBPS := s.defaultInterestRateBPS
            durationMonths := durationMonths
            monthlyPayment := monthlyPayment
            startTimestamp := now
            lastPaymentTimestamp := now
            totalPaid := value
            ownershipSharesBPS := initialOwnershipBPS
            paymentsCount := 0
            status := MortgageStatus.Applied }
          activateMortgage (pushBorrower (setMortgage s propertyId m) caller propertyId)
            mgrAddr propertyId

/-- The expected payment `makePayment` demands for mortgage `m` at time
`now` (source lines: `expectedPayment = monthlyPayment`, plus a
`LATE_FEE_BPS` late fee once `timeSinceLastPayment` exceeds one month plus
the grace period). -/
def expectedPaymentOf (m : Mortgage) (now : Nat) : Nat :=
  if SECONDS_PER_MONTH + GRACE_PERIOD < now - m.lastPaymentTimestamp then
    m.monthlyPayment + m.monthlyPayment * LATE_FEE_BPS / BASIS_POINTS
  else m.monthlyPayment

/-- The current outstanding balance of mortgage `m` (source expression
`loanAmount - (totalPaid - downPayment)`, shared by `makePayment` and
`_handleDefault`). -/
def remainingBalanceOf (m : Mortgage) : Nat :=
  m.loanAmount - (m.totalPaid - m.downPayment)

/-- The interest portion `makePayment` charges: the outstanding balance
times the `interestRateBPS / 12` monthly rate, in basis points (source
expression `remainingBalance * monthlyInterestRate / BASIS_POINTS`). -/
def interestPortion (m : Mortgage) : Nat :=
  remainingBalanceOf m * (m.interestRateBPS / 12) / BASIS_POINTS

/-- The ownership share `makePayment` records after adding `value` to
`totalPaid`: `totalPaid * BASIS_POINTS / propertyValue`, capped at
`BASIS_POINTS`. -/
def cappedOwnership (m : Mortgage) (value : Nat) : Nat :=
  let rawOwnership := (m.totalPaid + value) * BASIS_POINTS / m.propertyValue
  if BASIS_POINTS < rawOwnership then BASIS_POINTS else rawOwnership

/-- The pay-off condition `makePayment` checks after recording the
payment: full ownership reached, or all `durationMonths` payments made. -/
def completesPayment (m : Mortgage) (value : Nat) : Prop :=
  BASIS_POINTS ≤ cappedOwnership m value ∨ m.durationMonths ≤ m.paymentsCount + 1

instance (m : Mortgage) (value : Nat) : Decidable (completesPayment m value) := by
  unfold completesPayment
  infer_instance

/-- The mortgage-record update `makePayment` performs: add the payment to
`totalPaid`, stamp the payment time, count it, and recompute the capped
ownership share. -/
def paidMortgage (m : Mortgage) (value now : Nat) : Mortgage :=
  { m with
    totalPaid := m.totalPaid + value
    lastPaymentTimestamp := now
    paymentsCount := m.paymentsCount + 1
    ownershipSharesBPS := cappedOwnership m value }

/-- `MortgageManager.makePayment(propertyId)`; `value` is `msg.value`,
`now` is `block.timestamp`.  The source's intermediate expressions
(`expectedPayment`, `remainingBalance`, `interestPayment`,
`principalPayment`, the capped ownership update and the pay-off test) are
the named definitions above. -/
def makePayment (s : SysState) (mgrAddr caller : Addr)
    (propertyId value now : Nat) : Except String SysState :=
  let m := s.mortgages propertyId
  if m.status ≠ MortgageStatus.Active then Except.error "Mortgage not active"
  else if caller ≠ m.borrower then Except.error "Not the borrower"
  else if now < m.lastPaymentTimestamp then Except.error "arithmetic underflow"
  else if value < expectedPaymentOf m now then Except.error "Insufficient payment"
  else if m.totalPaid < m.downPayment then Except.error "arithmetic underflow"
  else if m.loanAmount < m.totalPaid - m.downPayment then
    Except.error "arithmetic underflow"
  else if expectedPaymentOf m now < interestPortion m then
    Except.error "arithmetic underflow"
  else if m.propertyValue = 0 then Except.error "division by zero"
  else
    let s1 := setMortgage s propertyId (paidMortgage m value now)
    match receiveMortgagePayment s1.pool mgrAddr value
        (expectedPaymentOf m now - interestPortion m) (interestPortion m) with
    | Except.error e => Except.error e
    | Except.ok pool1 =>
      let s2 := setPool s1 pool1
      if completesPayment m value then completeMortgage s2 propertyId
      else Except.ok s2

/-- `MortgageManager._foreclose(propertyId)`.  The custody transfer back
to the manager is not tracked; `listProperty` (which reverts on an
unminted id) sets the listing flag. -/
def foreclose (s : SysState) (propertyId : Nat) : Except String SysState :=
  let m1 := { s.mortgages propertyId with status := MortgageStatus.Foreclosed }
  match s.props propertyId with
  | none => Except.error "Property does not exist"
  | some p =>
    Except.ok (setProp (setMortgage s propertyId m1) propertyId
      (some { p with isListed := true }))

/-- `MortgageManager._handleDefault(propertyId)`. -/
def handleDefault (s : SysState) (mgrAddr : Addr) (propertyId : Nat) :
    Except String SysState :=
  let m := s.mortgages propertyId
  if s.totalActiveMortgages = 0 then Except.error "arithmetic underflow"
  else
    let s1 := { setMortgage s propertyId { m with status := MortgageStatus.Defaulted } with
      totalActiveMortgages := s.totalActiveMortgages - 1 }
    if m.totalPaid < m.downPayment then Except.error "arithmetic underflow"
    else if m.loanAmount < m.totalPaid - m.downPayment then
      Except.error "arithmetic underflow"
    else if 0 < remainingBalanceOf m then
      if remainingBalanceOf m / 2 ≤ s1.pool.insuranceReserve then
        match coverDefault s1.pool mgrAddr (remainingBalanceOf m / 2) with
        | Except.error e => Except.error e
        | Except.ok pool1 => foreclose (setPool s1 pool1) propertyId
      else foreclose s1 propertyId
    else foreclose s1 propertyId

/-- `MortgageManager.checkDefault(propertyId)`. -/
def checkDefault (s : SysState) (mgrAddr : Addr) (propertyId now : Nat) :
    Except String SysState :=
  let m := s.mortgages propertyId
  if m.status ≠ MortgageStatus.Active then Except.error "Mortgage not active"
  else if now < m.lastPaymentTimestamp then Except.error "arithmetic underflow"
  else if DEFAULT_PERIOD < now - m.lastPaymentTimestamp then
    handleDefault s mgrAddr propertyId
  else Except.ok s

/-! ## Observation helpers -/

/-- The loan record stored for `pid` after a manager call, or the mapping
default if the call reverted. -/
def mortgageAfterD : Except String SysState → Nat → Mortgage
  | Except.ok s, pid => s.mortgages pid
  | Except.error _, _ => defaultMortgage

/-- The pool state after a manager call, or a fresh pool if the call
reverted. -/
def poolAfter : Except String SysState → PoolState
  | Except.ok s => s.pool
  | Except.error _ => emptyPool

/-- The system state after a manager call, or `fallback` if it
reverted. -/
def sysAfter : Except String SysState → SysState → SysState
  | Except.ok s, _ => s
  | Except.error _, fallback => fallback

/-- The pool invariant of the spec: capital lent out never exceeds total
liquidity, i.e. `availableLiquidity()` never underflows. -/
def poolInvariant (st : PoolState) : Prop :=
  st.activeMortgages ≤ st.totalLiquidity

/-- The pool operation result `r` keeps the invariant (a revert keeps the
pre-state and preserves it trivially). -/
def invariantPreserved (r : Except String PoolState) : Prop :=
  ∀ st', r = Except.ok st' → poolInvariant st'

/-- The pool state a pool-level call produced, or a fresh pool if the call
reverted. -/
def poolResult : Except String PoolState → PoolState
  | Except.ok st => st
  | Except.error _ => emptyPool

/-! ## Concrete states for the witnesses -/

/-- Pool used by the concrete witness scenarios: one provider (address 1)
holds 100 shares over liquidity 100, of which 80 is lent out; the
insurance reserve holds 2; the manager (address 9) is authorized. -/
def examplePool : PoolState := { emptyPool with
  totalLiquidity := 100
  totalShares := 100
  insuranceReserve := 2
  activeMortgages := 80
  lpShares := fun a => if a = 1 then 100 else 0
  authorizedBorrowers := fun a => a == 9 }

/-- The spec's worked scenario: a 100-value property bought with 20 down
and an 80 loan at 500 bps over 12 months (monthly payment 7), held by
borrower 1. -/
def exampleMortgage : Mortgage := { defaultMortgage with
  borrower := 1
  propertyValue := 100
  downPayment := 20
  loanAmount := 80
  interestRateBPS := 500
  durationMonths := 12
  monthlyPayment := 7
  totalPaid := 20
  ownershipSharesBPS := 2000
  status := MortgageStatus.Active }

/-- System state of the worked scenario right after origination of the
mortgage on property 0 (the property is unlisted by activation). -/
def exampleSys : SysState where
  props := fun i => if i = 0 then some { valueUSD := 100, isListed := false } else none
  mortgages := fun i => if i = 0 then exampleMortgage else defaultMortgage
  borrowerMortgages := fun _ => []
  totalActiveMortgages := 1
  defaultInterestRateBPS := 500
  pool := examplePool

/-- A fresh deployment with one listed property of value 100, a funded
pool of 100 (nothing lent out) and the manager (address 9) authorized. -/
def freshSys : SysState where
  props := fun i => if i = 0 then some { valueUSD := 100, isListed := true } else none
  mortgages := fun _ => defaultMortgage
  borrowerMortgages := fun _ => []
  totalActiveMortgages := 0
  defaultInterestRateBPS := 500
  pool := { emptyPool with
    totalLiquidity := 100
    totalShares := 100
    authorizedBorrowers := fun a => a == 9 }

/-- The state after borrower 2 successfully applies on property 0 of
`freshSys` with 20 down over 12 months. -/
def afterFirstApply : SysState :=
  sysAfter (applyForMortgage freshSys 9 2 0 12 20 0) freshSys

/-- Like `afterFirstApply`, but the NFT owner has re-listed property 0
while its loan is still Active. -/
def relistedSys : SysState :=
  setProp afterFirstApply 0 (some { valueUSD := 100, isListed := true })

/-- A fresh deployment with one listed property of value 15 (not a
multiple of 10) and a pool of 14. -/
def lowDownSys : SysState where
  props := fun i => if i = 0 then some { valueUSD := 15, isListed := true } else none
  mortgages := fun _ => defaultMortgage
  borrowerMortgages := fun _ => []
  totalActiveMortgages := 0
  defaultInterestRateBPS := 500
  pool := { emptyPool with
    totalLiquidity := 14
    totalShares := 14
    authorizedBorrowers := fun a => a == 9 }
/-- The worked mortgage after several payments: `totalPaid` 96 leaves an
outstanding balance of 4; no payment has arrived for over 90 days. -/
def lateMortgage : Mortgage := { exampleMortgage with totalPaid := 96 }

/-- `exampleSys` with the overdue `lateMortgage` on property 0; the
reserve of 2 covers half of the remaining balance 4. -/
def lateSys : SysState :=
  { exampleSys with mortgages := fun i => if i = 0 then lateMortgage else defaultMortgage }

/-- `lateSys` with the insurance reserve drawn down to 1, strictly less
than half of the remaining balance 4. -/
def thinReserveSys : SysState :=
  { lateSys with pool := { examplePool with insuranceReserve := 1 } }


/-! ## Projection lemmas for the state-update helpers -/

@[simp]
theorem setMortgage_self (s : SysState) (pid : Nat) (m : Mortgage) :
    (setMortgage s pid m).mortgages pid = m := by
  simp [setMortgage]

@[simp]
theorem setMortgage_pool (s : SysState) (pid : Nat) (m : Mortgage) :
    (setMortgage s pid m).pool = s.pool := rfl

@[simp]
theorem setMortgage_props (s : SysState) (pid : Nat) (m : Mortgage) :
    (setMortgage s pid m).props = s.props := rfl

@[simp]
theorem setMortgage_totalActive (s : SysState) (pid : Nat) (m : Mortgage) :
    (setMortgage s pid m).totalActiveMortgages = s.totalActiveMortgages := rfl

@[simp]
theorem setPool_pool (s : SysState) (p : PoolState) : (setPool s p).pool = p := rfl

@[simp]
theorem setPool_mortgages (s : SysState) (p : PoolState) :
    (setPool s p).mortgages = s.mortgages := rfl

@[simp]
theorem setPool_props (s : SysState) (p : PoolState) : (setPool s p).props = s.props := rfl

@[simp]
theorem setProp_mortgages (s : SysState) (pid : Nat) (p : Option Property) :
    (setProp s pid p).mortgages = s.mortgages := rfl

@[simp]
theorem setProp_pool (s : SysState) (pid : Nat) (p : Option Property) :
    (setProp s pid p).pool = s.pool := rfl

@[simp]
theorem setProp_self (s : SysState) (pid : Nat) (p : Option Property) :
    (setProp s pid p).props pid = p := by
  simp [setProp]

@[simp]
theorem pushBorrower_mortgages (s : SysState) (a : Addr) (pid : Nat) :
    (pushBorrower s a pid).mortgages = s.mortgages := rfl

@[simp]
theorem pushBorrower_pool (s : SysState) (a : Addr) (pid : Nat) :
    (pushBorrower s a pid).pool = s.pool := rfl

@[simp]
theorem pushBorrower_props (s : SysState) (a : Addr) (pid : Nat) :
    (pushBorrower s a pid).props = s.props := rfl

@[simp]
theorem pushBorrower_totalActive (s : SysState) (a : Addr) (pid : Nat) :
    (pushBorrower s a pid).totalActiveMortgages = s.totalActiveMortgages := rfl

/-! ## Characterisation of successful pool and payment calls -/

/-- A successful `receiveMortgagePayment` received exactly
`principal + interest` and appended the split to the repayment log. -/
theorem receiveMortgagePayment_ok (st : PoolState) (caller : Addr)
    (value principal interest : Nat) (st' : PoolState)
    (h : receiveMortgagePayment st caller value principal interest = Except.ok st') :
    value = principal + interest ∧
    st'.repaymentLog = st.repaymentLog ++ [(principal, interest)] := by
  unfold receiveMortgagePayment at h
  split_ifs at h with h1 h2 h3 <;> simp only [Except.ok.injEq, reduceCtorEq] at h
  subst h
  exact ⟨by omega, rfl⟩

/-- Characterisation of a successful `makePayment`: the pre-state loan was
active, the payment equalled the expected payment exactly, the interest
portion was charged off the current outstanding balance and forwarded to
the pool together with the complementary principal portion, and the
ownership share was recomputed (capped, with completion forcing the full
10000 bps). -/
theorem makePayment_ok (s : SysState) (mgrAddr caller : Addr)
    (propertyId value now : Nat) (s' : SysState)
    (h : makePayment s mgrAddr caller propertyId value now = Except.ok s') :
    (s.mortgages propertyId).status = MortgageStatus.Active ∧
    value = expectedPaymentOf (s.mortgages propertyId) now ∧
    interestPortion (s.mortgages propertyId) ≤ value ∧
    s'.pool.repaymentLog = s.pool.repaymentLog ++
      [(value - interestPortion (s.mortgages propertyId),
        interestPortion (s.mortgages propertyId))] ∧
    (s'.mortgages propertyId).ownershipSharesBPS =
      (if completesPayment (s.mortgages propertyId) value then BASIS_POINTS
       else cappedOwnership (s.mortgages propertyId) value) ∧
    (s'.mortgages propertyId).status =
      (if completesPayment (s.mortgages propertyId) value then MortgageStatus.PaidOff
       else MortgageStatus.Active) := by
  simp only [makePayment] at h
  split at h
  case isTrue => exact Except.noConfusion h
  rename_i hActive
  split at h
  case isTrue => exact Except.noConfusion h
  rename_i hBorrower
  split at h
  case isTrue => exact Except.noConfusion h
  split at h
  case isTrue => exact Except.noConfusion h
  split at h
  case isTrue => exact Except.noConfusion h
  split at h
  case isTrue => exact Except.noConfusion h
  split at h
  case isTrue => exact Except.noConfusion h
  rename_i hInt
  split at h
  case isTrue => exact Except.noConfusion h
  split at h
  case h_1 => exact Except.noConfusion h
  rename_i pool1 heq
  obtain ⟨hv, hlog⟩ := receiveMortgagePayment_ok _ _ _ _ _ _ heq
  rw [setMortgage_pool] at hlog
  have hveq : value = expectedPaymentOf (s.mortgages propertyId) now := by omega
  have hint : interestPortion (s.mortgages propertyId) ≤ value := by omega
  have hlog' : pool1.repaymentLog = s.pool.repaymentLog ++
      [(value - interestPortion (s.mortgages propertyId),
        interestPortion (s.mortgages propertyId))] := by
    rw [hlog, hveq]
  split at h
  · rename_i hComp
    simp only [completeMortgage] at h
    split at h
    case isTrue => exact Except.noConfusion h
    rw [Except.ok.injEq] at h
    subst h
    refine ⟨not_not.mp hActive, hveq, hint, hlog', ?_, ?_⟩
    · simp [paidMortgage, if_pos hComp]
    · simp [if_pos hComp]
  · rename_i hComp
    rw [Except.ok.injEq] at h
    subst h
    refine ⟨not_not.mp hActive, hveq, hint, hlog', ?_, ?_⟩
    · simp [paidMortgage, if_neg hComp]
    · simp [paidMortgage, if_neg hComp, not_not.mp hActive]

/-- `cappedOwnership` is exactly the `min` of the spec. -/
theorem cappedOwnership_eq_min (m : Mortgage) (value : Nat) :
    cappedOwnership m value =
      min 10000 ((m.totalPaid + value) * 10000 / m.propertyValue) := by
  have key : ∀ raw : Nat, (if 10000 < raw then 10000 else raw) = min 10000 raw := by
    intro raw
    rw [Nat.min_def]
    split_ifs <;> omega
  exact key _

/-! ## C2: the principal/interest split of a successful payment -/

/-- C2: every successful `makePayment` forwards its `paidValue` to the
pool split into the interest portion `interestPortion` — the current
outstanding balance `loanAmount - (totalPaid - downPayment)` times the
`interestRateBPS/12` monthly rate over `BASIS_POINTS` — and a principal
portion of exactly `paidValue - interest`; the pool's repayment entry
records exactly that split.  (A successful call necessarily had
`paidValue` at least — indeed equal to — the expected payment.) -/
theorem C2_payment_split (s : SysState) (mgrAddr caller : Addr)
    (propertyId value now : Nat)
    (hOk : (makePayment s mgrAddr caller propertyId value now).isOk = true) :
    interestPortion (s.mortgages propertyId) ≤ value ∧
    (poolAfter (makePayment s mgrAddr caller propertyId value now)).repaymentLog =
      s.pool.repaymentLog ++
        [(value - interestPortion (s.mortgages propertyId),
          interestPortion (s.mortgages propertyId))] := by
  rcases hr : makePayment s mgrAddr caller propertyId value now with e | s'
  · rw [hr] at hOk
    exact absurd hOk (by simp [Except.isOk, Except.toBool])
  · obtain ⟨-, -, hint, hlog, -, -⟩ := makePayment_ok _ _ _ _ _ _ _ hr
    exact ⟨hint, hlog⟩

/-- Witness for C2: the scenario payment of 7 one month in (outstanding
80, monthly rate 41 bps, interest portion 0, principal 7). -/
theorem C2_payment_split_witness :
    interestPortion (exampleSys.mortgages 0) ≤ 7 ∧
    (poolAfter (makePayment exampleSys 9 1 0 7 86400)).repaymentLog =
      exampleSys.pool.repaymentLog ++
        [(7 - interestPortion (exampleSys.mortgages 0),
          interestPortion (exampleSys.mortgages 0))] :=
  C2_payment_split exampleSys 9 1 0 7 86400 (by rfl)

/-! ## C10: only the exact expected payment succeeds -/

/-- C10: a `makePayment` whose `paidValue` differs from the expected
payment (monthly payment plus late fee when applicable) cannot succeed:
the manager forwards the full `paidValue` while the split sums to the
expected payment, so the pool's payment-mismatch check rejects any
overpayment (and underpayments are rejected up front).  Hence a
successful call implies `paidValue = expectedPaymentOf`. -/
theorem C10_exact_payment_only (s : SysState) (mgrAddr caller : Addr)
    (propertyId value now : Nat) :
    (expectedPaymentOf (s.mortgages propertyId) now < value →
      (makePayment s mgrAddr caller propertyId value now).isOk = false) ∧
    ((makePayment s mgrAddr caller propertyId value now).isOk = true →
      value = expectedPaymentOf (s.mortgages propertyId) now) := by
  have key : ∀ s', makePayment s mgrAddr caller propertyId value now = Except.ok s' →
      value = expectedPaymentOf (s.mortgages propertyId) now := by
    intro s' hr
    exact (makePayment_ok _ _ _ _ _ _ _ hr).2.1
  constructor
  · intro hlt
    rcases hr : makePayment s mgrAddr caller propertyId value now with e | s'
    · simp [Except.isOk, Except.toBool]
    · exact absurd (key s' hr) (by omega)
  · intro hOk
    rcases hr : makePayment s mgrAddr caller propertyId value now with e | s'
    · rw [hr] at hOk
      exact absurd hOk (by simp [Except.isOk, Except.toBool])
    · exact key s' hr

/-- Witness for C10: overpaying the scenario's expected payment of 7 with
8 makes the whole payment revert. -/
theorem C10_exact_payment_only_witness :
    (makePayment exampleSys 9 1 0 8 86400).isOk = false :=
  (C10_exact_payment_only exampleSys 9 1 0 8 86400).1 (by decide)

/-! ## C4: the ownership-share invariant -/

/-- C4: after a successful payment the recorded ownership share never
exceeds 10000 bps, never decreases (given the pre-state satisfied the
share formula), and — whenever the loan is still Active afterwards —
equals `min 10000 (cumulativePaid * 10000 / originalAssetValue)` for the
new cumulative total. -/
theorem C4_ownership (s : SysState) (mgrAddr caller : Addr)
    (propertyId value now : Nat)
    (hOk : (makePayment s mgrAddr caller propertyId value now).isOk = true)
    (hOwn : (s.mortgages propertyId).ownershipSharesBPS =
      min 10000 ((s.mortgages propertyId).totalPaid * 10000 /
        (s.mortgages propertyId).propertyValue)) :
    (mortgageAfterD (makePayment s mgrAddr caller propertyId value now)
        propertyId).ownershipSharesBPS ≤ 10000 ∧
    (s.mortgages propertyId).ownershipSharesBPS ≤
      (mortgageAfterD (makePayment s mgrAddr caller propertyId value now)
        propertyId).ownershipSharesBPS ∧
    ((mortgageAfterD (makePayment s mgrAddr caller propertyId value now)
        propertyId).status = MortgageStatus.Active →
      (mortgageAfterD (makePayment s mgrAddr caller propertyId value now)
          propertyId).ownershipSharesBPS =
        min 10000 (((s.mortgages propertyId).totalPaid + value) * 10000 /
          (s.mortgages propertyId).propertyValue)) := by
  rcases hr : makePayment s mgrAddr caller propertyId value now with e | s'
  · rw [hr] at hOk
    exact absurd hOk (by simp [Except.isOk, Except.toBool])
  · obtain ⟨-, -, -, -, hshare, hstat⟩ := makePayment_ok _ _ _ _ _ _ _ hr
    simp only [mortgageAfterD]
    have hmin : (s.mortgages propertyId).totalPaid * 10000 /
          (s.mortgages propertyId).propertyValue ≤
        ((s.mortgages propertyId).totalPaid + value) * 10000 /
          (s.mortgages propertyId).propertyValue :=
      Nat.div_le_div_right (Nat.mul_le_mul_right _ (Nat.le_add_right _ _))
    rw [cappedOwnership_eq_min] at hshare
    split_ifs at hshare hstat with hc
    · refine ⟨by rw [hshare]; simp [BASIS_POINTS], ?_, ?_⟩
      · rw [hshare, hOwn]
        simp [BASIS_POINTS]
      · intro hact
        rw [hstat] at hact
        exact absurd hact (by decide)
    · refine ⟨by rw [hshare]; omega, ?_, fun _ => hshare⟩
      rw [hshare, hOwn]
      omega

/-- Witness for C4: the scenario payment of 7 takes the share from 2000
to 2700 bps. -/
theorem C4_ownership_witness :
    (mortgageAfterD (makePayment exampleSys 9 1 0 7 86400) 0).ownershipSharesBPS ≤ 10000 ∧
    (exampleSys.mortgages 0).ownershipSharesBPS ≤
      (mortgageAfterD (makePayment exampleSys 9 1 0 7 86400) 0).ownershipSharesBPS ∧
    ((mortgageAfterD (makePayment exampleSys 9 1 0 7 86400) 0).status =
        MortgageStatus.Active →
      (mortgageAfterD (makePayment exampleSys 9 1 0 7 86400) 0).ownershipSharesBPS =
        min 10000 (((exampleSys.mortgages 0).totalPaid + 7) * 10000 /
          (exampleSys.mortgages 0).propertyValue)) :=
  C4_ownership exampleSys 9 1 0 7 86400 (by rfl) (by decide)

/-! ## C5: the down-payment floor and the principal identity -/

/-- A successful `_activateMortgage` only flips the stored record's status
to Active. -/
theorem activateMortgage_ok (s : SysState) (mgrAddr : Addr) (pid : Nat)
    (s' : SysState) (h : activateMortgage s mgrAddr pid = Except.ok s') :
    s'.mortgages pid = { s.mortgages pid with status := MortgageStatus.Active } := by
  simp only [activateMortgage] at h
  split at h
  case isTrue => exact Except.noConfusion h
  split at h
  case h_1 => exact Except.noConfusion h
  rw [Except.ok.injEq] at h
  subst h
  simp

/-- C5: an accepted application records `downPayment = msg.value` with
`downPayment ≥ floor(assetValue * 1000 / 10000)` (the integer floor of
10%) and `principal + downPayment = assetValue`; an application on a
listed, unmortgaged asset whose down payment is below that floor fails
with the down-payment-too-low error.  (The strict rational bound
`downPayment ≥ 0.10 * assetValue` fails on asset values that are not
multiples of 10 — see the counterexample.) -/
theorem C5_down_payment (s : SysState) (mgrAddr caller : Addr)
    (propertyId durationMonths value now : Nat) (p : Property)
    (hp : s.props propertyId = some p) :
    ((applyForMortgage s mgrAddr caller propertyId durationMonths value now).isOk = true →
      (mortgageAfterD (applyForMortgage s mgrAddr caller propertyId durationMonths value now)
        propertyId).downPayment = value ∧
      p.valueUSD * 1000 / 10000 ≤ value ∧
      (mortgageAfterD (applyForMortgage s mgrAddr caller propertyId durationMonths value now)
        propertyId).loanAmount + value = p.valueUSD) ∧
    (value < p.valueUSD * 1000 / 10000 → p.isListed = true →
      (s.mortgages propertyId).status = MortgageStatus.None →
      applyForMortgage s mgrAddr caller propertyId durationMonths value now =
        Except.error "Insufficient down payment (min 10%)") := by
  constructor
  · intro hOk
    rcases hr : applyForMortgage s mgrAddr caller propertyId durationMonths value now
      with e | s'
    · rw [hr] at hOk
      exact absurd hOk (by simp [Except.isOk, Except.toBool])
    · simp only [mortgageAfterD]
      simp only [applyForMortgage, hp, BASIS_POINTS] at hr
      split at hr
      case isTrue => exact Except.noConfusion hr
      split at hr
      case isTrue => exact Except.noConfusion hr
      split at hr
      case isTrue => exact Except.noConfusion hr
      rename_i hmin
      split at hr
      case isTrue => exact Except.noConfusion hr
      rename_i hsub
      split at hr
      case isTrue => exact Except.noConfusion hr
      split at hr
      case isTrue => exact Except.noConfusion hr
      split at hr
      case isTrue => exact Except.noConfusion hr
      have hrec := activateMortgage_ok _ _ _ _ hr
      simp only [pushBorrower_mortgages, setMortgage_self] at hrec
      rw [hrec]
      exact ⟨rfl, by omega, by simp only []; omega⟩
  · intro hlt hlist hstat
    simp only [applyForMortgage, hp, hlist, hstat, BASIS_POINTS]
    simp [hlt]

/-- Witness for C5: asset value 100, down payment 20; the application is
accepted, records the 20 down and an 80 loan, and 20 clears the floor
of 10. -/
theorem C5_down_payment_witness :
    (mortgageAfterD (applyForMortgage freshSys 9 2 0 12 20 0) 0).downPayment = 20 ∧
    (100 : Nat) * 1000 / 10000 ≤ 20 ∧
    (mortgageAfterD (applyForMortgage freshSys 9 2 0 12 20 0) 0).loanAmount + 20 = 100 :=
  (C5_down_payment freshSys 9 2 0 12 20 0
    { valueUSD := 100, isListed := true } (by rfl)).1 (by rfl)

/-- C5 counterexample: for an asset of value 15 the floor threshold is
`15*1000/10000 = 1`, so a down payment of 1 is accepted even though
`10 * 1 < 15`, i.e. the down payment is strictly below 10% of the asset
value. -/
theorem C5_counterexample :
    (applyForMortgage lowDownSys 9 2 0 12 1 0).isOk = true ∧
    (mortgageAfterD (applyForMortgage lowDownSys 9 2 0 12 1 0) 0).downPayment = 1 ∧
    ((mortgageAfterD (applyForMortgage lowDownSys 9 2 0 12 1 0) 0).status =
      MortgageStatus.Active) ∧
    ¬ (15 : Nat) ≤ 10 * 1 :=
  ⟨by rfl, by rfl, by rfl, by decide⟩

/-! ## C9: re-applying for a financed asset -/

/-- C9: an `applyForMortgage` on an asset whose loan record is not `None`
always reverts — but with the status-conflict error only when the
property is currently listed; when it is unlisted (as activation leaves
it) the earlier listing check fires first and the call reverts with the
not-listed error instead.  Either way the revert leaves all state
unchanged. -/
theorem C9_reapply_rejected (s : SysState) (mgrAddr caller : Addr)
    (propertyId durationMonths value now : Nat) (p : Property)
    (hp : s.props propertyId = some p)
    (hstat : (s.mortgages propertyId).status ≠ MortgageStatus.None) :
    applyForMortgage s mgrAddr caller propertyId durationMonths value now =
      Except.error
        (if p.isListed then "Property already mortgaged" else "Property not listed") := by
  cases hlist : p.isListed
  · simp [applyForMortgage, hp, hlist]
  · simp [applyForMortgage, hp, hlist, hstat]

/-- Witness for C9: a state in which property 0 is listed again while its
loan record is Active; the second application hits the status-conflict
error. -/
theorem C9_reapply_rejected_witness :
    applyForMortgage relistedSys 9 3 0 12 20 5 =
      Except.error "Property already mortgaged" := by
  have h := C9_reapply_rejected relistedSys 9 3 0 12 20 5
    { valueUSD := 100, isListed := true } (by rfl) (by decide)
  simpa using h

/-- C9 counterexample: starting from a fresh listed asset, a first
application succeeds and leaves the loan Active with the property
unlisted; the second application then fails with the not-listed error,
not the status-conflict error the claim requires. -/
theorem C9_counterexample :
    (applyForMortgage freshSys 9 2 0 12 20 0).isOk = true ∧
    (afterFirstApply.mortgages 0).status = MortgageStatus.Active ∧
    applyForMortgage afterFirstApply 9 3 0 12 20 5 =
      Except.error "Property not listed" ∧
    "Property not listed" ≠ "Property already mortgaged" :=
  ⟨by rfl, by rfl, by rfl, by decide⟩

/-! ## C8: the amortization formula -/

/-- C8: for every `principal`, `annualRateBps` and `termMonths > 0`, the
monthly payment computed at origination equals
`floor((principal + floor(principal*annualRateBps*termMonths/(10000*12))) / termMonths)`
under exact integer floor division; in particular for principal 80, rate
500 bps and term 12 months the total interest is 4 and the monthly
payment is 7. -/
theorem C8_monthly_payment (principal annualRateBPS termMonths : Nat)
    (h : 0 < termMonths) :
    calculateMonthlyPayment principal annualRateBPS termMonths =
      (principal + principal * annualRateBPS * termMonths / (10000 * 12)) / termMonths ∧
    80 * 500 * 12 / (10000 * 12) = 4 ∧
    calculateMonthlyPayment 80 500 12 = 7 := by
  refine ⟨?_, by norm_num, by decide⟩
  unfold calculateMonthlyPayment BASIS_POINTS
  rw [if_neg (Nat.pos_iff_ne_zero.mp h)]

/-- Witness for C8 at principal 80, rate 500 bps, term 12 months. -/
theorem C8_monthly_payment_witness :
    calculateMonthlyPayment 80 500 12 =
      (80 + 80 * 500 * 12 / (10000 * 12)) / 12 :=
  (C8_monthly_payment 80 500 12 (by decide)).1

/-! ## C7: deposit share minting and the insurance cut -/

/-- C7: `depositLiquidity` rejects a zero deposit with the invalid-amount
error; a positive deposit mints `amount` shares on the first deposit and
`floor(amount * totalShares / totalLiquidity)` shares afterwards, adds the
full amount to `totalLiquidity`, and credits `amount * 200 / 10000` to the
insurance reserve without subtracting it from the liquidity used in the
share computation (the shares are computed from the pre-state
`totalLiquidity` and the full amount is added to it). -/
theorem C7_deposit (st : PoolState) (caller : Addr) (value now : Nat)
    (hL : st.totalShares = 0 ∨ st.totalLiquidity ≠ 0) :
    (value = 0 → depositLiquidity st caller value now = Except.error "Must deposit ETH") ∧
    (0 < value →
      (depositLiquidity st caller value now).isOk = true ∧
      (poolResult (depositLiquidity st caller value now)).totalLiquidity =
        st.totalLiquidity + value ∧
      (poolResult (depositLiquidity st caller value now)).insuranceReserve =
        st.insuranceReserve + value * 200 / 10000 ∧
      (poolResult (depositLiquidity st caller value now)).totalShares =
        st.totalShares +
          (if st.totalShares = 0 then value else value * st.totalShares / st.totalLiquidity) ∧
      (poolResult (depositLiquidity st caller value now)).lpShares caller =
        st.lpShares caller +
          (if st.totalShares = 0 then value else value * st.totalShares / st.totalLiquidity)) := by
  constructor
  · intro hv
    unfold depositLiquidity
    rw [if_pos hv]
  · intro hv
    have hv' : ¬ value = 0 := by omega
    have hLC : ¬ (st.totalShares ≠ 0 ∧ st.totalLiquidity = 0) := by tauto
    simp only [depositLiquidity, INSURANCE_RATE, BASIS_POINTS, if_neg hv', if_neg hLC,
      poolResult, Except.isOk]
    simp [Except.toBool]

/-- Witness for C7: a first deposit of 100 into a fresh pool. -/
theorem C7_deposit_witness :
    (0 : Nat) < 100 ∧
    ((depositLiquidity emptyPool 1 100 0).isOk = true ∧
      (poolResult (depositLiquidity emptyPool 1 100 0)).totalLiquidity =
        emptyPool.totalLiquidity + 100 ∧
      (poolResult (depositLiquidity emptyPool 1 100 0)).insuranceReserve =
        emptyPool.insuranceReserve + 100 * 200 / 10000 ∧
      (poolResult (depositLiquidity emptyPool 1 100 0)).totalShares =
        emptyPool.totalShares +
          (if emptyPool.totalShares = 0 then 100
           else 100 * emptyPool.totalShares / emptyPool.totalLiquidity) ∧
      (poolResult (depositLiquidity emptyPool 1 100 0)).lpShares 1 =
        emptyPool.lpShares 1 +
          (if emptyPool.totalShares = 0 then 100
           else 100 * emptyPool.totalShares / emptyPool.totalLiquidity)) :=
  ⟨by decide, (C7_deposit emptyPool 1 100 0 (Or.inl rfl)).2 (by decide)⟩

/-! ## C6: withdrawal beyond available liquidity -/

/-- C6: a withdrawal whose payout `shares * totalLiquidity / totalShares`
exceeds the available liquidity `totalLiquidity - activeMortgages` fails
with the liquidity-locked error.  An `Except.error` result models a
reverted transaction, so the caller's shares, `totalShares` and
`totalLiquidity` are left unchanged. -/
theorem C6_withdraw_locked (st : PoolState) (caller : Addr) (shares : Nat)
    (h1 : shares ≤ st.lpShares caller) (h2 : 0 < shares)
    (h3 : st.totalShares ≠ 0) (h4 : st.activeMortgages ≤ st.totalLiquidity)
    (h5 : st.totalLiquidity - st.activeMortgages <
      shares * st.totalLiquidity / st.totalShares) :
    withdrawLiquidity st caller shares =
      Except.error "Insufficient liquidity (funds locked in mortgages)" := by
  simp only [withdrawLiquidity]
  split_ifs <;> first | rfl | omega

/-- Witness for C6: 10 shares held out of 10 total, pool liquidity 10 with
8 locked in mortgages; redeeming 5 shares is worth 5 > 2 available. -/
theorem C6_withdraw_locked_witness :
    withdrawLiquidity
      { emptyPool with
        totalLiquidity := 10, totalShares := 10, activeMortgages := 8,
        lpShares := fun a => if a = 1 then 10 else 0 } 1 5 =
      Except.error "Insufficient liquidity (funds locked in mortgages)" :=
  C6_withdraw_locked _ 1 5 (by decide) (by decide) (by decide) (by decide) (by decide)

/-! ## C3: the pool solvency invariant -/

/-- C3: the invariant `activeLoanCapital ≤ totalLiquidity` holds of a
freshly deployed pool and is preserved by every pool operation (deposit,
withdrawal, loan funding, repayment, default cover); a withdrawal or loan
funding that would break it reverts instead, so
`availableLiquidity = totalLiquidity - activeLoanCapital` never
underflows. -/
theorem C3_pool_invariant (st : PoolState) (caller borrower : Addr)
    (value now shares amount rvalue principal interest camount : Nat)
    (hInv : poolInvariant st) :
    poolInvariant emptyPool ∧
    invariantPreserved (depositLiquidity st caller value now) ∧
    invariantPreserved (withdrawLiquidity st caller shares) ∧
    invariantPreserved (fundMortgage st caller borrower amount) ∧
    invariantPreserved (receiveMortgagePayment st caller rvalue principal interest) ∧
    invariantPreserved (coverDefault st caller camount) := by
  unfold poolInvariant at hInv
  refine ⟨by simp [poolInvariant, emptyPool], ?_, ?_, ?_, ?_, ?_⟩ <;>
    intro st' h <;> unfold poolInvariant <;>
    simp only [depositLiquidity, withdrawLiquidity, fundMortgage,
      receiveMortgagePayment, coverDefault] at h <;>
    split_ifs at h <;>
    simp only [Except.ok.injEq, reduceCtorEq] at h <;>
    subst h <;> simp <;> omega

/-- Witness for C3 on a concrete solvent pool: liquidity 100 with 80 lent
out. -/
theorem C3_pool_invariant_witness :
    poolInvariant emptyPool ∧
    invariantPreserved (depositLiquidity
      { emptyPool with totalLiquidity := 100, totalShares := 100, activeMortgages := 80 }
      1 50 0) ∧
    invariantPreserved (withdrawLiquidity
      { emptyPool with totalLiquidity := 100, totalShares := 100, activeMortgages := 80 }
      1 5) ∧
    invariantPreserved (fundMortgage
      { emptyPool with totalLiquidity := 100, totalShares := 100, activeMortgages := 80 }
      1 2 10) ∧
    invariantPreserved (receiveMortgagePayment
      { emptyPool with totalLiquidity := 100, totalShares := 100, activeMortgages := 80 }
      1 7 7 0) ∧
    invariantPreserved (coverDefault
      { emptyPool with totalLiquidity := 100, totalShares := 100, activeMortgages := 80 }
      1 3) :=
  C3_pool_invariant _ 1 2 50 0 5 10 7 7 0 3 (by norm_num [poolInvariant])

/-! ## C1: the default path and the insurance payout -/

/-- C1 (amended): when a loan is Active and more than the 90-day default
period has elapsed since the last payment, `checkDefault` drives the loan
through Defaulted to Foreclosed; it requests `coverDefault` for exactly
half of the remaining balance when that half fits in the insurance
reserve, and when the reserve holds less than half it performs **no**
payout at all — the request is skipped, not capped — leaving the reserve
unchanged.  The reserve never underflows, because `coverDefault` is only
invoked when the amount fits. -/
theorem C1_default_payout (s : SysState) (mgrAddr : Addr) (propertyId now : Nat)
    (p : Property)
    (hstat : (s.mortgages propertyId).status = MortgageStatus.Active)
    (htime : DEFAULT_PERIOD < now - (s.mortgages propertyId).lastPaymentTimestamp)
    (hcnt : s.totalActiveMortgages ≠ 0)
    (hdown : (s.mortgages propertyId).downPayment ≤ (s.mortgages propertyId).totalPaid)
    (hbal : (s.mortgages propertyId).totalPaid - (s.mortgages propertyId).downPayment ≤
      (s.mortgages propertyId).loanAmount)
    (hp : s.props propertyId = some p)
    (hauth : s.pool.authorizedBorrowers mgrAddr = true)
    (hhalf : remainingBalanceOf (s.mortgages propertyId) / 2 ≤ s.pool.activeMortgages) :
    (checkDefault s mgrAddr propertyId now).isOk = true ∧
    (mortgageAfterD (checkDefault s mgrAddr propertyId now) propertyId).status =
      MortgageStatus.Foreclosed ∧
    (0 < remainingBalanceOf (s.mortgages propertyId) →
      remainingBalanceOf (s.mortgages propertyId) / 2 ≤ s.pool.insuranceReserve →
      (poolAfter (checkDefault s mgrAddr propertyId now)).insuranceReserve =
        s.pool.insuranceReserve - remainingBalanceOf (s.mortgages propertyId) / 2 ∧
      (poolAfter (checkDefault s mgrAddr propertyId now)).payoutLog =
        s.pool.payoutLog ++ [remainingBalanceOf (s.mortgages propertyId) / 2]) ∧
    (s.pool.insuranceReserve < remainingBalanceOf (s.mortgages propertyId) / 2 ∨
      remainingBalanceOf (s.mortgages propertyId) = 0 →
      (poolAfter (checkDefault s mgrAddr propertyId now)).insuranceReserve =
        s.pool.insuranceReserve ∧
      (poolAfter (checkDefault s mgrAddr propertyId now)).payoutLog = s.pool.payoutLog) := by
  have hcd : checkDefault s mgrAddr propertyId now = handleDefault s mgrAddr propertyId := by
    simp only [checkDefault]
    rw [if_neg (by simp [hstat]),
      if_neg (show ¬ now < (s.mortgages propertyId).lastPaymentTimestamp by omega),
      if_pos htime]
  rw [hcd]
  simp only [handleDefault]
  rw [if_neg hcnt,
    if_neg (show ¬ (s.mortgages propertyId).totalPaid <
      (s.mortgages propertyId).downPayment by omega),
    if_neg (show ¬ (s.mortgages propertyId).loanAmount <
      (s.mortgages propertyId).totalPaid - (s.mortgages propertyId).downPayment by omega)]
  by_cases h0 : 0 < remainingBalanceOf (s.mortgages propertyId)
  · rw [if_pos h0]
    by_cases hres : remainingBalanceOf (s.mortgages propertyId) / 2 ≤
        s.pool.insuranceReserve
    · rw [if_pos (by simpa using hres)]
      have hcov : coverDefault s.pool mgrAddr
          (remainingBalanceOf (s.mortgages propertyId) / 2) =
          Except.ok { s.pool with
            insuranceReserve :=
              s.pool.insuranceReserve - remainingBalanceOf (s.mortgages propertyId) / 2
            activeMortgages :=
              s.pool.activeMortgages - remainingBalanceOf (s.mortgages propertyId) / 2
            payoutLog :=
              s.pool.payoutLog ++ [remainingBalanceOf (s.mortgages propertyId) / 2] } := by
        unfold coverDefault
        rw [if_neg (by simp [hauth]), if_neg (by omega), if_neg (by omega)]
      simp only [setMortgage_pool]
      rw [hcov]
      simp only [foreclose, setPool_props, setMortgage_props, hp]
      refine ⟨rfl, ?_, ?_, ?_⟩
      · simp [mortgageAfterD]
      · intro h1 h2
        exact ⟨by simp [poolAfter], by simp [poolAfter]⟩
      · intro hor
        exact absurd hor (by omega)
    · rw [if_neg (by simpa using hres)]
      simp only [foreclose, setMortgage_props, hp]
      refine ⟨rfl, by simp [mortgageAfterD], ?_, ?_⟩
      · intro h1 h2
        exact absurd h2 hres
      · intro hor
        exact ⟨by simp [poolAfter], by simp [poolAfter]⟩
  · rw [if_neg h0]
    simp only [foreclose, setMortgage_props, hp]
    refine ⟨rfl, by simp [mortgageAfterD], ?_, ?_⟩
    · intro h1 h2
      exact absurd h1 h0
    · intro hor
      exact ⟨by simp [poolAfter], by simp [poolAfter]⟩

/-- Witness for C1 (amended): 91 days after the last payment on the
worked mortgage with outstanding balance 4, the reserve of 2 covers half
of it: the loan forecloses, the reserve drops to 0 and the payout log
records the payout of 2. -/
theorem C1_default_payout_witness :
    (checkDefault lateSys 9 0 7862400).isOk = true ∧
    (mortgageAfterD (checkDefault lateSys 9 0 7862400) 0).status =
      MortgageStatus.Foreclosed ∧
    (poolAfter (checkDefault lateSys 9 0 7862400)).insuranceReserve = 0 ∧
    (poolAfter (checkDefault lateSys 9 0 7862400)).payoutLog = [2] := by
  have h := C1_default_payout lateSys 9 0 7862400 { valueUSD := 100, isListed := false }
    (by rfl) (by decide) (by decide) (by decide) (by decide) (by rfl) (by rfl) (by decide)
  obtain ⟨h1, h2, h3, -⟩ := h
  obtain ⟨h5, h6⟩ := h3 (by decide) (by decide)
  refine ⟨h1, h2, ?_, ?_⟩
  · rw [h5]
    decide
  · rw [h6]
    decide

/-- C1 counterexample: same overdue loan with remaining balance 4, but
the reserve holds only 1 < 2 = half.  `checkDefault` succeeds and
forecloses, yet no payout is requested at all: the reserve stays 1 and
the payout log stays empty, whereas the claim demands a payout capped at
the reserve balance 1 (which would leave the reserve at 0 and log the
payout 1). -/
theorem C1_counterexample :
    (checkDefault thinReserveSys 9 0 7862400).isOk = true ∧
    remainingBalanceOf (thinReserveSys.mortgages 0) = 4 ∧
    thinReserveSys.pool.insuranceReserve = 1 ∧
    (poolAfter (checkDefault thinReserveSys 9 0 7862400)).insuranceReserve = 1 ∧
    (poolAfter (checkDefault thinReserveSys 9 0 7862400)).payoutLog = [] ∧
    (poolAfter (checkDefault thinReserveSys 9 0 7862400)).payoutLog ≠ [1] :=
  ⟨by rfl, by rfl, by rfl, by rfl, by rfl, by decide⟩

end Mortpool
